import Mathlib

/-!
Verification of the Account Lifecycle & Quota Orchestration subsystem of the
one-proxy desktop client, as implemented in `src/pages/Accounts.tsx` (the
elaborate page variant beginning at line 705).

Modelling conventions:
* React `useState` cells become fields of `AccountsState`.
* Every Tauri `invoke` is a `RemoteCall`; handlers return an `Outcome`
  recording the final state, the remote calls issued (in the order the
  source issues them), the `alert` messages shown, the `console.error`
  logs, the URLs handed to the external browser, and whether the 60-second
  auto-clear timeout of `startLogin` was installed.
* The results of remote calls are supplied by an `Env` record; a throwing
  call is an `Except.error`.  A call that throws is still recorded in the
  trace (the request was issued before the rejection propagated).
* JS object-spread updates `{...prev, [k]: v}` become `setKey`; a read
  `m[k]` with truthiness test becomes `lookupD` (absent keys are falsy).
* `JSON.parse` is an external function and enters the model as the
  `parse` field of `Env`; a parse failure is `none`.
* Fire-and-forget async calls (`fetchQuota(...)` without `await`) start
  synchronously up to their first await, so the remote-call trace order of
  the model matches the initiation order of the source; their completions
  are modelled as running in initiation order.
-/

/-- `AuthAccount` from Accounts.tsx.  The source field `prefix` is a Lean
keyword and is rendered here as `pfx`; it is display-only and never read by
the modelled logic. -/
structure AuthAccount where
  id : String
  provider : String
  email : Option String
  enabled : Bool
  pfx : Option String
  deriving DecidableEq, Repr

/-- Opaque quota payload: the four per-provider quota record shapes
(`QuotaData`, `CodexQuotaData`, `GeminiQuotaData`, `KiroQuotaData`) are
stored wholesale and never inspected by the orchestration logic, so the
model treats a payload as an opaque value. -/
structure QuotaPayload where
  val : Nat
  deriving DecidableEq, Repr

/-- `CachedQuota` from Accounts.tsx: the persisted record returned by
`get_cached_quotas`; `quota_data` is the still-serialized JSON string. -/
structure CachedQuota where
  account_id : String
  provider : String
  quota_data : String
  last_updated : Int
  deriving DecidableEq, Repr

/-- `get_server_status` result shape. -/
structure ServerStatus where
  running : Bool
  deriving DecidableEq, Repr

/-- `get_settings` result shape (the fields read by Accounts.tsx). -/
structure Settings where
  quota_refresh_interval : Nat
  token_refresh_interval : Nat
  deriving DecidableEq, Repr

/-- The RemoteService operations issued by the modelled handlers. -/
inductive RemoteCall where
  | getServerStatus
  | startServer
  | startOauthLogin (provider : String)
  | getAuthAccounts
  | setAccountEnabled (accountId : String) (enabled : Bool)
  | setGeminiProjectId (accountId : String) (projectId : String)
  | getCachedQuotas
  | fetchAntigravityQuota (accountId : String)
  | fetchCodexQuota (accountId : String)
  | fetchGeminiQuota (accountId : String)
  | fetchKiroQuota (accountId : String)
  | getSettings
  deriving DecidableEq, Repr

/-- The `useState` cells of the Accounts component that the modelled
handlers read or write.  The four quota-data and four quota-loading
dictionaries are association lists keyed by account id. -/
structure AccountsState where
  accounts : List AuthAccount
  loading : Bool
  loginInProgress : Option String
  showProjectPrompt : Bool
  projectIdInput : String
  pendingGeminiAccountId : Option String
  selectedIds : List String
  quotaData : List (String × QuotaPayload)
  quotaLoading : List (String × Bool)
  codexQuotaData : List (String × QuotaPayload)
  codexQuotaLoading : List (String × Bool)
  geminiQuotaData : List (String × QuotaPayload)
  geminiQuotaLoading : List (String × Bool)
  kiroQuotaData : List (String × QuotaPayload)
  kiroQuotaLoading : List (String × Bool)
  deriving DecidableEq, Repr

/-- Responses of the external world: one field per RemoteService operation
(plus the browser `open` and `JSON.parse`).  `Except.error e` models a
rejected promise carrying message `e`. -/
structure Env where
  serverStatus : Except String ServerStatus
  startServer : Except String Unit
  oauthLogin : String → Except String String
  openUrl : String → Except String Unit
  authAccounts : Except String (List AuthAccount)
  setAccountEnabled : String → Bool → Except String Unit
  setGeminiProjectId : String → String → Except String Unit
  cachedQuotas : Except String (List (String × CachedQuota))
  parse : String → Option QuotaPayload
  fetchAntigravity : String → Except String QuotaPayload
  fetchCodex : String → Except String QuotaPayload
  fetchGemini : String → Except String QuotaPayload
  fetchKiro : String → Except String QuotaPayload
  settings : Except String Settings

/-- Result of running one handler: final component state plus the observable
effects it produced. -/
structure Outcome where
  state : AccountsState
  calls : List RemoteCall
  alerts : List String
  logsErr : List String
  opened : List String
  timeout60 : Bool
  deriving DecidableEq, Repr

/-- A handler path that produces no effects. -/
def pureOutcome (st : AccountsState) : Outcome :=
  ⟨st, [], [], [], [], false⟩

/-- JS object-spread update `{...m, [k]: v}` on a string-keyed dictionary. -/
def setKey {α : Type} (m : List (String × α)) (k : String) (v : α) :
    List (String × α) :=
  (k, v) :: m.filter (fun p => !(p.1 == k))

/-- JS dictionary read `m[k]` in boolean position: an absent key is falsy. -/
def lookupD (m : List (String × Bool)) (k : String) : Bool :=
  (m.lookup k).getD false

theorem lookup_setKey_self {α : Type} (m : List (String × α)) (k : String)
    (v : α) : (setKey m k v).lookup k = some v := by
  simp [setKey, List.lookup]

theorem lookup_filter_ne {α : Type} (m : List (String × α)) (k k' : String)
    (h : k' ≠ k) :
    (m.filter (fun p => !(p.1 == k))).lookup k' = m.lookup k' := by
  induction m with
  | nil => simp
  | cons p rest ih =>
    by_cases hp : p.1 = k
    · subst hp
      simp only [List.filter_cons, beq_self_eq_true, Bool.not_true,
        Bool.false_eq_true, if_false]
      rw [ih]
      have : (k' == p.1) = false := by simp [h]
      simp [List.lookup, this]
    · have hb : (p.1 == k) = false := by simp [hp]
      simp only [List.filter_cons, hb, Bool.not_false, if_true]
      by_cases hk : k' = p.1
      · subst hk; simp [List.lookup]
      · have hb' : (k' == p.1) = false := by simp [hk]
        simp [List.lookup, hb', ih]

theorem lookup_setKey_ne {α : Type} (m : List (String × α)) (k k' : String)
    (v : α) (h : k' ≠ k) : (setKey m k v).lookup k' = m.lookup k' := by
  have hb : (k' == k) = false := by simp [h]
  simp only [setKey, List.lookup, hb]
  exact lookup_filter_ne m k k' h

theorem lookupD_setKey_self (m : List (String × Bool)) (k : String)
    (v : Bool) : lookupD (setKey m k v) k = v := by
  simp [lookupD, lookup_setKey_self]

theorem lookupD_setKey_ne (m : List (String × Bool)) (k k' : String)
    (v : Bool) (h : k' ≠ k) : lookupD (setKey m k v) k' = lookupD m k' := by
  simp [lookupD, lookup_setKey_ne m k k' v h]

/-- `fetchQuota` (Accounts.tsx lines 1085–1096): antigravity quota fetch with
per-id in-flight guard; the result replaces the cache entry wholesale; the
loading flag is cleared in `finally`. -/
def fetchQuota (st : AccountsState) (env : Env) (accountId : String) :
    Outcome :=
  if lookupD st.quotaLoading accountId then pureOutcome st
  else
    let st1 := { st with quotaLoading := setKey st.quotaLoading accountId true }
    match env.fetchAntigravity accountId with
    | .ok result =>
      let st2 := { st1 with quotaData := setKey st1.quotaData accountId result }
      ⟨{ st2 with quotaLoading := setKey st2.quotaLoading accountId false },
        [RemoteCall.fetchAntigravityQuota accountId], [], [], [], false⟩
    | .error e =>
      ⟨{ st1 with quotaLoading := setKey st1.quotaLoading accountId false },
        [RemoteCall.fetchAntigravityQuota accountId], [],
        ["Failed to fetch quota: " ++ e], [], false⟩

/-- `fetchCodexQuota` (Accounts.tsx lines 1098–1109). -/
def fetchCodexQuota (st : AccountsState) (env : Env) (accountId : String) :
    Outcome :=
  if lookupD st.codexQuotaLoading accountId then pureOutcome st
  else
    let st1 := { st with codexQuotaLoading := setKey st.codexQuotaLoading accountId true }
    match env.fetchCodex accountId with
    | .ok result =>
      let st2 := { st1 with codexQuotaData := setKey st1.codexQuotaData accountId result }
      ⟨{ st2 with codexQuotaLoading := setKey st2.codexQuotaLoading accountId false },
        [RemoteCall.fetchCodexQuota accountId], [], [], [], false⟩
    | .error e =>
      ⟨{ st1 with codexQuotaLoading := setKey st1.codexQuotaLoading accountId false },
        [RemoteCall.fetchCodexQuota accountId], [],
        ["Failed to fetch codex quota: " ++ e], [], false⟩

/-- `fetchGeminiQuota` (Accounts.tsx lines 1111–1122). -/
def fetchGeminiQuota (st : AccountsState) (env : Env) (accountId : String) :
    Outcome :=
  if lookupD st.geminiQuotaLoading accountId then pureOutcome st
  else
    let st1 := { st with geminiQuotaLoading := setKey st.geminiQuotaLoading accountId true }
    match env.fetchGemini accountId with
    | .ok result =>
      let st2 := { st1 with geminiQuotaData := setKey st1.geminiQuotaData accountId result }
      ⟨{ st2 with geminiQuotaLoading := setKey st2.geminiQuotaLoading accountId false },
        [RemoteCall.fetchGeminiQuota accountId], [], [], [], false⟩
    | .error e =>
      ⟨{ st1 with geminiQuotaLoading := setKey st1.geminiQuotaLoading accountId false },
        [RemoteCall.fetchGeminiQuota accountId], [],
        ["Failed to fetch gemini quota: " ++ e], [], false⟩

/-- `fetchKiroQuota` (Accounts.tsx lines 1124–1135). -/
def fetchKiroQuota (st : AccountsState) (env : Env) (accountId : String) :
    Outcome :=
  if lookupD st.kiroQuotaLoading accountId then pureOutcome st
  else
    let st1 := { st with kiroQuotaLoading := setKey st.kiroQuotaLoading accountId true }
    match env.fetchKiro accountId with
    | .ok result =>
      let st2 := { st1 with kiroQuotaData := setKey st1.kiroQuotaData accountId result }
      ⟨{ st2 with kiroQuotaLoading := setKey st2.kiroQuotaLoading accountId false },
        [RemoteCall.fetchKiroQuota accountId], [], [], [], false⟩
    | .error e =>
      ⟨{ st1 with kiroQuotaLoading := setKey st1.kiroQuotaLoading accountId false },
        [RemoteCall.fetchKiroQuota accountId], [],
        ["Failed to fetch kiro quota: " ++ e], [], false⟩

/-- JS `String.prototype.trim`: strip leading and trailing whitespace.
Written by structural recursion on the character list so that concrete
inputs evaluate inside the kernel. -/
def jsTrim (s : String) : String :=
  ⟨((s.data.dropWhile Char.isWhitespace).reverse.dropWhile
      Char.isWhitespace).reverse⟩

/-- `handleProjectConfirm` (Accounts.tsx lines 983–1006): trims the project-id
input; an empty trim is rejected in place with a validation alert; otherwise
the prompt closes and `set_gemini_project_id` is invoked. -/
def handleProjectConfirm (st : AccountsState) (env : Env) : Outcome :=
  let trimmed := jsTrim st.projectIdInput
  if trimmed = "" then
    ⟨st, [], ["需要填写项目 ID 才能继续登录"], [], [], false⟩
  else
    let st1 := { st with showProjectPrompt := false }
    match st1.pendingGeminiAccountId with
    | none =>
      ⟨{ st1 with pendingGeminiAccountId := none }, [],
        ["未找到可更新的 Gemini 账户"], [], [], false⟩
    | some accountId =>
      let st2 := { st1 with pendingGeminiAccountId := none }
      match env.setGeminiProjectId accountId trimmed with
      | .ok _ =>
        ⟨st2, [RemoteCall.setGeminiProjectId accountId trimmed],
          ["项目 ID 已保存"], [], [], false⟩
      | .error e =>
        ⟨st2, [RemoteCall.setGeminiProjectId accountId trimmed],
          ["保存失败: " ++ e], [],
          [], false⟩

/-- `handleProjectCancel` (Accounts.tsx lines 1008–1013): closes the prompt,
clears the pending account and input, and clears the in-flight login marker;
no remote call. -/
def handleProjectCancel (st : AccountsState) : Outcome :=
  ⟨{ st with
      showProjectPrompt := false
      pendingGeminiAccountId := none
      projectIdInput := ""
      loginInProgress := none }, [], [], [], [], false⟩

/-- JS `String.prototype.startsWith`: written via the structurally
recursive list prefix test so that concrete inputs evaluate inside the
kernel. -/
def jsStartsWith (s pre : String) : Bool :=
  pre.data.isPrefixOf s.data

/-- Target selection of the Google/Gemini project-id subflow
(Accounts.tsx lines 948–955): the first fetched account with raw provider
`"gemini"` whose id is absent from the pre-login snapshot, else the first
fetched account with raw provider `"gemini"` (`newGemini ?? fallbackGemini`). -/
def geminiTarget (beforeIds : List String) (latest : List AuthAccount) :
    Option AuthAccount :=
  match latest.find? (fun a => a.provider == "gemini" && !(beforeIds.contains a.id)) with
  | some a => some a
  | none => latest.find? (fun a => a.provider == "gemini")

/-- The `catch` block of `startLogin` (Accounts.tsx lines 972–976): surface
the error and reset the in-flight marker. -/
def loginFail (st : AccountsState) (calls : List RemoteCall) (e : String) :
    Outcome :=
  ⟨{ st with loginInProgress := none }, calls, ["登录失败: " ++ e],
    ["Failed to start OAuth: " ++ e], [], false⟩

/-- The tail of `startLogin` from the `start_oauth_login` call on
(Accounts.tsx lines 931–971), with `st1` the state after
`setLoginInProgress(provider)` and `calls0` the remote calls already made. -/
def startLoginAuth (st1 : AccountsState) (provider : String) (env : Env)
    (calls0 : List RemoteCall) : Outcome :=
  let calls1 := calls0 ++ [RemoteCall.startOauthLogin provider]
  match env.oauthLogin provider with
  | .error e => loginFail st1 calls1 e
  | .ok authUrl =>
    if authUrl ≠ "" ∧ jsStartsWith authUrl "http" then
      match env.openUrl authUrl with
      | .error e => loginFail st1 calls1 e
      | .ok _ => ⟨st1, calls1, [], [], [authUrl], true⟩
    else if authUrl ≠ "" then
      let calls2 := calls1 ++ [RemoteCall.getAuthAccounts]
      match env.authAccounts with
      | .error e => loginFail st1 calls2 e
      | .ok latest =>
        let beforeIds := st1.accounts.map (fun a => a.id)
        let st2 := { st1 with accounts := latest }
        let st3 :=
          if provider = "google" then
            match geminiTarget beforeIds latest with
            | some target =>
              { st2 with
                  pendingGeminiAccountId := some target.id
                  projectIdInput := ""
                  showProjectPrompt := true }
            | none => st2
          else st2
        ⟨{ st3 with loginInProgress := none }, calls2, [], [], [], false⟩
    else
      ⟨{ st1 with loginInProgress := none }, calls1,
        ["登录失败: 未返回授权 URL"], ["No auth URL returned"], [], true⟩

/-- `startLogin` (Accounts.tsx lines 914–977): sets the in-flight marker,
ensures the proxy server is running, requests an auth URL and dispatches on
its three shapes (HTTP URL / non-URL completion token / empty). -/
def startLogin (st : AccountsState) (provider : String) (env : Env) :
    Outcome :=
  let st1 := { st with loginInProgress := some provider }
  match env.serverStatus with
  | .error e => loginFail st1 [RemoteCall.getServerStatus] e
  | .ok status =>
    if status.running then
      startLoginAuth st1 provider env [RemoteCall.getServerStatus]
    else
      match env.startServer with
      | .error e =>
        loginFail st1 [RemoteCall.getServerStatus, RemoteCall.startServer] e
      | .ok _ =>
        startLoginAuth st1 provider env
          [RemoteCall.getServerStatus, RemoteCall.startServer]

/-- The disabled condition of the add-account entry point
(Accounts.tsx line 1305: `disabled={loginInProgress !== null}`): the only
re-entry protection around `startLogin`. -/
def addAccountMenuDisabled (st : AccountsState) : Bool :=
  st.loginInProgress.isSome

/-- The login-polling effect (Accounts.tsx lines 745–757): the 2-second
`fetchAccounts` interval is installed exactly while `loginInProgress` is
set. -/
def pollingInstalled (st : AccountsState) : Bool :=
  st.loginInProgress.isSome

/-- State-and-log threading of one cache record in the `loadCachedQuotas`
loop (Accounts.tsx lines 795–810): parse the serialized payload and route it
into the dictionary of the record's provider; a parse failure only logs. -/
def applyCacheEntry (env : Env) (st : AccountsState)
    (entry : String × CachedQuota) : AccountsState :=
  match env.parse entry.2.quota_data with
  | none => st
  | some v =>
    if entry.2.provider == "antigravity" then
      { st with quotaData := setKey st.quotaData entry.1 v }
    else if entry.2.provider == "codex" then
      { st with codexQuotaData := setKey st.codexQuotaData entry.1 v }
    else if entry.2.provider == "gemini" then
      { st with geminiQuotaData := setKey st.geminiQuotaData entry.1 v }
    else if entry.2.provider == "kiro" then
      { st with kiroQuotaData := setKey st.kiroQuotaData entry.1 v }
    else st

/-- The `console.error` log of one cache record (empty unless the payload
fails to parse). -/
def cacheEntryLogs (env : Env) (entry : String × CachedQuota) : List String :=
  match env.parse entry.2.quota_data with
  | none => ["Failed to parse cached quota for " ++ entry.1]
  | some _ => []

/-- The state after folding the `loadCachedQuotas` loop over the fetched
record entries. -/
def cacheFoldState (env : Env) (st : AccountsState) :
    List (String × CachedQuota) → AccountsState
  | [] => st
  | e :: rest => cacheFoldState env (applyCacheEntry env st e) rest

/-- The logs emitted by the `loadCachedQuotas` loop. -/
def cacheFoldLogs (env : Env) : List (String × CachedQuota) → List String
  | [] => []
  | e :: rest => cacheEntryLogs env e ++ cacheFoldLogs env rest

/-- `loadCachedQuotas` (Accounts.tsx lines 792–814): fetch the persisted
quota map and merge each record into the in-memory dictionaries; a throwing
fetch only logs. -/
def loadCachedQuotas (st : AccountsState) (env : Env) : Outcome :=
  match env.cachedQuotas with
  | .error e =>
    ⟨st, [RemoteCall.getCachedQuotas], [],
      ["Failed to load cached quotas: " ++ e], [], false⟩
  | .ok entries =>
    ⟨cacheFoldState env st entries, [RemoteCall.getCachedQuotas], [],
      cacheFoldLogs env entries, [], false⟩

/-- Sequencing of two handler runs: the second starts from the first's
state; effects accumulate in order. -/
def seqOutcome (o1 o2 : Outcome) : Outcome :=
  ⟨o2.state, o1.calls ++ o2.calls, o1.alerts ++ o2.alerts,
    o1.logsErr ++ o2.logsErr, o1.opened ++ o2.opened,
    o1.timeout60 || o2.timeout60⟩

/-- Per-provider dispatch of the new-account fan-out in `fetchAccounts`
(Accounts.tsx lines 834–844). -/
def fetchForNewAccount (st : AccountsState) (env : Env) (a : AuthAccount) :
    Outcome :=
  if a.provider == "antigravity" then fetchQuota st env a.id
  else if a.provider == "openai" || a.provider == "codex" then
    fetchCodexQuota st env a.id
  else if a.provider == "gemini" || a.provider == "google" then
    fetchGeminiQuota st env a.id
  else if a.provider == "kiro" then fetchKiroQuota st env a.id
  else pureOutcome st

/-- `fetchAccounts` (Accounts.tsx lines 816–851): re-fetch the account list,
clear the login marker when new accounts appeared during a login, and for
new accounts reload the cache and fan out per-provider quota fetches. -/
def fetchAccounts (st : AccountsState) (env : Env) : Outcome :=
  let st0 := { st with loading := true }
  let prevIds := st.accounts.map (fun a => a.id)
  match env.authAccounts with
  | .error e =>
    ⟨{ st0 with loading := false }, [RemoteCall.getAuthAccounts], [],
      ["Failed to fetch accounts: " ++ e], [], false⟩
  | .ok result =>
    let newAccounts := result.filter (fun a => !(prevIds.contains a.id))
    let st1 :=
      if st0.loginInProgress.isSome && !newAccounts.isEmpty then
        { st0 with loginInProgress := none }
      else st0
    let st2 := { st1 with accounts := result }
    if newAccounts.isEmpty then
      ⟨{ st2 with loading := false }, [RemoteCall.getAuthAccounts], [], [],
        [], false⟩
    else
      let lc := loadCachedQuotas st2 env
      let fanned := newAccounts.foldl
        (fun o a => seqOutcome o (fetchForNewAccount o.state env a)) lc
      ⟨{ fanned.state with loading := false },
        RemoteCall.getAuthAccounts :: fanned.calls, fanned.alerts,
        fanned.logsErr, fanned.opened, fanned.timeout60⟩

/-- The sequential mutation loop of the batch executors
(Accounts.tsx lines 1219–1221 / 1233–1235): returns the calls made and the
first error, stopping at it. -/
def batchLoop (env : Env) (enabled : Bool) :
    List String → List RemoteCall × Option String
  | [] => ([], none)
  | id :: rest =>
    match env.setAccountEnabled id enabled with
    | .error e => ([RemoteCall.setAccountEnabled id enabled], some e)
    | .ok _ =>
      let r := batchLoop env enabled rest
      (RemoteCall.setAccountEnabled id enabled :: r.1, r.2)

/-- `handleBatchEnable` (Accounts.tsx lines 1216–1228). -/
def handleBatchEnable (st : AccountsState) (env : Env) : Outcome :=
  if st.selectedIds.isEmpty then pureOutcome st
  else
    match batchLoop env true st.selectedIds with
    | (calls, some e) =>
      ⟨st, calls, ["批量启用失败: " ++ e],
        ["Failed to enable accounts: " ++ e], [], false⟩
    | (calls, none) =>
      let fa := fetchAccounts st env
      ⟨{ fa.state with selectedIds := [] }, calls ++ fa.calls, fa.alerts,
        fa.logsErr, fa.opened, fa.timeout60⟩

/-- `handleBatchDisable` (Accounts.tsx lines 1230–1242). -/
def handleBatchDisable (st : AccountsState) (env : Env) : Outcome :=
  if st.selectedIds.isEmpty then pureOutcome st
  else
    match batchLoop env false st.selectedIds with
    | (calls, some e) =>
      ⟨st, calls, ["批量禁用失败: " ++ e],
        ["Failed to disable accounts: " ++ e], [], false⟩
    | (calls, none) =>
      let fa := fetchAccounts st env
      ⟨{ fa.state with selectedIds := [] }, calls ++ fa.calls, fa.alerts,
        fa.logsErr, fa.opened, fa.timeout60⟩

/-- `refreshAllQuotas` (Accounts.tsx lines 853–870): fan out quota fetches
for every known account, grouped by provider family (antigravity, then
openai/codex, then gemini/google, then kiro). -/
def refreshAllQuotas (st : AccountsState) (env : Env) : Outcome :=
  let o1 := (st.accounts.filter (fun a => a.provider == "antigravity")).foldl
    (fun o a => seqOutcome o (fetchQuota o.state env a.id)) (pureOutcome st)
  let o2 := (st.accounts.filter
      (fun a => a.provider == "openai" || a.provider == "codex")).foldl
    (fun o a => seqOutcome o (fetchCodexQuota o.state env a.id)) o1
  let o3 := (st.accounts.filter
      (fun a => a.provider == "gemini" || a.provider == "google")).foldl
    (fun o a => seqOutcome o (fetchGeminiQuota o.state env a.id)) o2
  (st.accounts.filter (fun a => a.provider == "kiro")).foldl
    (fun o a => seqOutcome o (fetchKiroQuota o.state env a.id)) o3

/-- React dependency semantics of the auto-refresh effect
(Accounts.tsx line 789, deps `[accounts.length]`): the effect — and hence
teardown of the old timer and the conditional `setupAutoRefresh` — re-runs
exactly when the account count changed between renders. -/
def autoRefreshEffectReruns (prevLen currLen : Nat) : Bool :=
  prevLen != currLen

/-- `setupAutoRefresh` (Accounts.tsx lines 763–780): read the settings once
and install a repeating timer whose period is `quota_refresh_interval`
minutes in milliseconds; returns the calls made and the installed period
(`none` when `get_settings` threw). -/
def setupAutoRefresh (env : Env) : List RemoteCall × Option Nat :=
  match env.settings with
  | .error _ => ([RemoteCall.getSettings], none)
  | .ok s => ([RemoteCall.getSettings],
      some (s.quota_refresh_interval * 60 * 1000))

/-- The body of the auto-refresh effect (Accounts.tsx lines 782–784):
`setupAutoRefresh` runs only when the current account count is non-zero. -/
def autoRefreshEffectBody (currLen : Nat) (env : Env) :
    List RemoteCall × Option Nat :=
  if currLen > 0 then setupAutoRefresh env else ([], none)

/-- One tick of the installed auto-refresh timer
(Accounts.tsx lines 769–774): refresh all quotas if accounts are known. -/
def autoRefreshTick (st : AccountsState) (env : Env) : Outcome :=
  if st.accounts.length > 0 then refreshAllQuotas st env else pureOutcome st

/-- A component state with no accounts, no selection, empty dictionaries and
no login in flight. -/
def stBase : AccountsState :=
  { accounts := [], loading := false, loginInProgress := none,
    showProjectPrompt := false, projectIdInput := "",
    pendingGeminiAccountId := none, selectedIds := [], quotaData := [],
    quotaLoading := [], codexQuotaData := [], codexQuotaLoading := [],
    geminiQuotaData := [], geminiQuotaLoading := [], kiroQuotaData := [],
    kiroQuotaLoading := [] }

/-- An environment in which every remote operation succeeds. -/
def envBase : Env :=
  { serverStatus := .ok ⟨true⟩, startServer := .ok (),
    oauthLogin := fun _ => .ok "http://auth.example", openUrl := fun _ => .ok (),
    authAccounts := .ok [], setAccountEnabled := fun _ _ => .ok (),
    setGeminiProjectId := fun _ _ => .ok (), cachedQuotas := .ok [],
    parse := fun _ => none, fetchAntigravity := fun _ => .ok ⟨0⟩,
    fetchCodex := fun _ => .ok ⟨0⟩, fetchGemini := fun _ => .ok ⟨0⟩,
    fetchKiro := fun _ => .ok ⟨0⟩, settings := .ok ⟨5, 5⟩ }

/-- C10: with an empty selection set, both batch executors return
immediately: zero RemoteService calls, and the account list, selection set
and every quota/loading dictionary are unchanged (the whole outcome is the
no-effect outcome on the unchanged state). -/
theorem batch_empty_selection_noop (st : AccountsState) (env : Env)
    (h : st.selectedIds = []) :
    handleBatchEnable st env = pureOutcome st ∧
    handleBatchDisable st env = pureOutcome st := by
  constructor <;> simp [handleBatchEnable, handleBatchDisable, h]

/-- Witness for C10 at the concrete empty-selection state. -/
theorem batch_empty_selection_noop_witness :
    stBase.selectedIds = [] ∧
    handleBatchEnable stBase envBase = pureOutcome stBase ∧
    handleBatchDisable stBase envBase = pureOutcome stBase :=
  ⟨rfl, (batch_empty_selection_noop stBase envBase rfl).1,
    (batch_empty_selection_noop stBase envBase rfl).2⟩

/-- C3: for each of the four provider families, a quota fetch invoked while
that id's loading flag is already true is a complete no-op: no RemoteService
call, no error surfaced, and no quota or loading state changed. -/
theorem quota_fetch_inflight_noop (st : AccountsState) (env : Env)
    (id : String) :
    (lookupD st.quotaLoading id = true →
      fetchQuota st env id = pureOutcome st) ∧
    (lookupD st.codexQuotaLoading id = true →
      fetchCodexQuota st env id = pureOutcome st) ∧
    (lookupD st.geminiQuotaLoading id = true →
      fetchGeminiQuota st env id = pureOutcome st) ∧
    (lookupD st.kiroQuotaLoading id = true →
      fetchKiroQuota st env id = pureOutcome st) := by
  refine ⟨?_, ?_, ?_, ?_⟩ <;> intro h <;>
    simp [fetchQuota, fetchCodexQuota, fetchGeminiQuota, fetchKiroQuota, h]

/-- A state in which account "a" has an in-flight fetch in all four
families. -/
def stAllLoading : AccountsState :=
  { stBase with
      quotaLoading := [("a", true)]
      codexQuotaLoading := [("a", true)]
      geminiQuotaLoading := [("a", true)]
      kiroQuotaLoading := [("a", true)] }

/-- Witness for C3 at a concrete already-loading id. -/
theorem quota_fetch_inflight_noop_witness :
    lookupD stAllLoading.quotaLoading "a" = true ∧
    fetchQuota stAllLoading envBase "a" = pureOutcome stAllLoading ∧
    fetchCodexQuota stAllLoading envBase "a" = pureOutcome stAllLoading ∧
    fetchGeminiQuota stAllLoading envBase "a" = pureOutcome stAllLoading ∧
    fetchKiroQuota stAllLoading envBase "a" = pureOutcome stAllLoading :=
  ⟨by decide,
    (quota_fetch_inflight_noop stAllLoading envBase "a").1 (by decide),
    (quota_fetch_inflight_noop stAllLoading envBase "a").2.1 (by decide),
    (quota_fetch_inflight_noop stAllLoading envBase "a").2.2.1 (by decide),
    (quota_fetch_inflight_noop stAllLoading envBase "a").2.2.2 (by decide)⟩

/-- C6: confirming the project-id prompt with input whose trim is empty
(whitespace-only, including the empty string) is rejected in place: the
state is unchanged (so the prompt stays open), exactly the validation
message is alerted, and zero RemoteService calls are made. -/
theorem project_confirm_whitespace_rejected (st : AccountsState) (env : Env)
    (h : jsTrim st.projectIdInput = "") :
    handleProjectConfirm st env =
      ⟨st, [], ["需要填写项目 ID 才能继续登录"], [], [], false⟩ := by
  simp [handleProjectConfirm, h]

/-- An open project-id prompt whose input buffer holds only spaces. -/
def stPrompt : AccountsState :=
  { stBase with
      showProjectPrompt := true
      projectIdInput := "  "
      pendingGeminiAccountId := some "g1" }

/-- Witness for C6 at the concrete whitespace-only input. -/
theorem project_confirm_whitespace_rejected_witness :
    jsTrim stPrompt.projectIdInput = "" ∧
    handleProjectConfirm stPrompt envBase =
      ⟨stPrompt, [], ["需要填写项目 ID 才能继续登录"], [], [], false⟩ ∧
    (handleProjectConfirm stPrompt envBase).state.showProjectPrompt = true :=
  ⟨by decide,
    project_confirm_whitespace_rejected stPrompt envBase (by decide),
    by
      rw [project_confirm_whitespace_rejected stPrompt envBase (by decide)]
      rfl⟩

/-- C9: for the antigravity and gemini families, when the guard lets a fetch
through and the remote call throws, the quota-data entry for that id is left
exactly as it was (the dictionary itself is unchanged, so no error record
replaces the previous snapshot), and the per-id loading flag is false after
the call returns on both the success and the failure path. -/
theorem quota_fetch_failure_preserves_entry (st : AccountsState) (env : Env)
    (id : String) :
    (lookupD st.quotaLoading id = false →
      (∀ e, env.fetchAntigravity id = .error e →
        (fetchQuota st env id).state.quotaData = st.quotaData) ∧
      lookupD (fetchQuota st env id).state.quotaLoading id = false) ∧
    (lookupD st.geminiQuotaLoading id = false →
      (∀ e, env.fetchGemini id = .error e →
        (fetchGeminiQuota st env id).state.geminiQuotaData =
          st.geminiQuotaData) ∧
      lookupD (fetchGeminiQuota st env id).state.geminiQuotaLoading id =
        false) := by
  constructor
  · intro h
    constructor
    · intro e he
      simp [fetchQuota, h, he]
    · cases hf : env.fetchAntigravity id <;>
        simp [fetchQuota, h, hf, lookupD_setKey_self]
  · intro h
    constructor
    · intro e he
      simp [fetchGeminiQuota, h, he]
    · cases hf : env.fetchGemini id <;>
        simp [fetchGeminiQuota, h, hf, lookupD_setKey_self]

/-- An environment in which the antigravity and gemini quota fetches throw. -/
def envFetchFail : Env :=
  { envBase with
      fetchAntigravity := fun _ => .error "boom"
      fetchGemini := fun _ => .error "boom" }

/-- Witness for C9 at a concrete throwing fetch. -/
theorem quota_fetch_failure_preserves_entry_witness :
    lookupD stBase.quotaLoading "a" = false ∧
    envFetchFail.fetchAntigravity "a" = .error "boom" ∧
    (fetchQuota stBase envFetchFail "a").state.quotaData = stBase.quotaData ∧
    lookupD (fetchQuota stBase envFetchFail "a").state.quotaLoading "a" =
      false ∧
    (fetchGeminiQuota stBase envFetchFail "a").state.geminiQuotaData =
      stBase.geminiQuotaData ∧
    lookupD (fetchGeminiQuota stBase envFetchFail "a").state.geminiQuotaLoading
      "a" = false :=
  ⟨by decide, rfl,
    ((quota_fetch_failure_preserves_entry stBase envFetchFail "a").1
      (by decide)).1 "boom" rfl,
    ((quota_fetch_failure_preserves_entry stBase envFetchFail "a").1
      (by decide)).2,
    ((quota_fetch_failure_preserves_entry stBase envFetchFail "a").2
      (by decide)).1 "boom" rfl,
    ((quota_fetch_failure_preserves_entry stBase envFetchFail "a").2
      (by decide)).2⟩

theorem startLoginAuth_calls_extend (st1 : AccountsState) (p : String)
    (env : Env) (c0 : List RemoteCall) :
    ∃ rest, (startLoginAuth st1 p env c0).calls = c0 ++ rest := by
  unfold startLoginAuth
  cases h : env.oauthLogin p with
  | error e => exact ⟨[RemoteCall.startOauthLogin p], rfl⟩
  | ok url =>
    simp only
    split
    · cases h2 : env.openUrl url with
      | error e => exact ⟨[RemoteCall.startOauthLogin p], rfl⟩
      | ok u => exact ⟨[RemoteCall.startOauthLogin p], rfl⟩
    · split
      · cases h3 : env.authAccounts with
        | error e =>
          exact ⟨[RemoteCall.startOauthLogin p, RemoteCall.getAuthAccounts],
            by simp [loginFail]⟩
        | ok latest =>
          exact ⟨[RemoteCall.startOauthLogin p, RemoteCall.getAuthAccounts],
            by simp⟩
      · exact ⟨[RemoteCall.startOauthLogin p], rfl⟩

/-- C1 counterexample: with a login for "openai" already in flight,
invoking `startLogin` for "google" in the all-success environment is not
rejected — it issues RemoteService calls and mutates the state (the
in-flight marker is overwritten to "google"). -/
theorem startLogin_reentry_not_rejected :
    (startLogin { stBase with loginInProgress := some "openai" } "google"
        envBase).calls ≠ [] ∧
    (startLogin { stBase with loginInProgress := some "openai" } "google"
        envBase).state ≠ { stBase with loginInProgress := some "openai" } := by
  decide

/-- C1 amended: `startLogin` contains no re-entry guard.  Its behaviour is
independent of the prior `loginInProgress` value (the marker is overwritten
unconditionally), it always contacts RemoteService (`get_server_status` is
in every trace), and the at-most-one-login discipline is enforced only by
the UI disabling the add-account entry point while a login is in flight. -/
theorem startLogin_ignores_prior_login_flag (st : AccountsState)
    (provider : String) (env : Env) (v : Option String) :
    startLogin { st with loginInProgress := v } provider env =
      startLogin st provider env ∧
    RemoteCall.getServerStatus ∈ (startLogin st provider env).calls ∧
    (addAccountMenuDisabled st = true ↔ st.loginInProgress ≠ none) := by
  refine ⟨rfl, ?_, ?_⟩
  · unfold startLogin
    cases hs : env.serverStatus with
    | error e => simp [loginFail]
    | ok status =>
      simp only
      split
      · rcases startLoginAuth_calls_extend { st with loginInProgress := some provider }
          provider env [RemoteCall.getServerStatus] with ⟨rest, hr⟩
        simp [hr]
      · cases h2 : env.startServer with
        | error e => simp [loginFail]
        | ok u =>
          rcases startLoginAuth_calls_extend { st with loginInProgress := some provider }
            provider env [RemoteCall.getServerStatus, RemoteCall.startServer] with ⟨rest, hr⟩
          simp [hr]
  · simp [addAccountMenuDisabled, Option.isSome_iff_ne_none]

/-- C5: for every provider, when `start_oauth_login` resolves to the empty
string the login terminates as failed: the "no authorization URL" error is
alerted, the in-flight marker is reset to idle, no URL is opened in the
browser, and the 2-second account-polling interval is not installed. -/
theorem empty_auth_url_fails_login (st : AccountsState) (provider : String)
    (env : Env) (s : ServerStatus) (hs : env.serverStatus = .ok s)
    (hstart : s.running = false → env.startServer = .ok ())
    (hurl : env.oauthLogin provider = .ok "") :
    (startLogin st provider env).state.loginInProgress = none ∧
    (startLogin st provider env).alerts = ["登录失败: 未返回授权 URL"] ∧
    (startLogin st provider env).opened = [] ∧
    pollingInstalled (startLogin st provider env).state = false := by
  have hauth : ∀ c0, startLoginAuth { st with loginInProgress := some provider }
      provider env c0 =
      ⟨{ st with loginInProgress := none }, c0 ++ [RemoteCall.startOauthLogin provider],
        ["登录失败: 未返回授权 URL"], ["No auth URL returned"], [], true⟩ := by
    intro c0
    simp [startLoginAuth, hurl]
  unfold startLogin
  rw [hs]
  cases hr : s.running with
  | true => simp [hr, hauth, pollingInstalled]
  | false =>
    rw [hstart hr]
    simp [hr, hauth, pollingInstalled]

/-- Witness for C5: a concrete environment whose `start_oauth_login`
resolves to the empty string. -/
theorem empty_auth_url_fails_login_witness :
    ({ envBase with oauthLogin := fun _ => .ok "" } : Env).serverStatus =
      .ok ⟨true⟩ ∧
    ({ envBase with oauthLogin := fun _ => .ok "" } : Env).oauthLogin
      "openai" = .ok "" ∧
    (startLogin stBase "openai"
      { envBase with oauthLogin := fun _ => .ok "" }).state.loginInProgress =
      none ∧
    (startLogin stBase "openai"
      { envBase with oauthLogin := fun _ => .ok "" }).alerts =
      ["登录失败: 未返回授权 URL"] ∧
    (startLogin stBase "openai"
      { envBase with oauthLogin := fun _ => .ok "" }).opened = [] ∧
    pollingInstalled (startLogin stBase "openai"
      { envBase with oauthLogin := fun _ => .ok "" }).state = false := by
  refine ⟨rfl, rfl, ?_⟩
  have h := empty_auth_url_fails_login stBase "openai"
    { envBase with oauthLogin := fun _ => .ok "" } ⟨true⟩ rfl
    (fun hcon => by simp at hcon) rfl
  exact ⟨h.1, h.2.1, h.2.2.1, h.2.2.2⟩

theorem geminiTarget_fresh (beforeIds : List String)
    (latest : List AuthAccount)
    (h : ∃ g ∈ latest, g.provider = "gemini" ∧ g.id ∉ beforeIds) :
    ∃ t ∈ latest, t.provider = "gemini" ∧ t.id ∉ beforeIds ∧
      geminiTarget beforeIds latest = some t := by
  obtain ⟨g, hg, hgp, hgid⟩ := h
  have hp : (g.provider == "gemini" && !(beforeIds.contains g.id)) = true := by
    simp [hgp, List.contains, hgid]
  have hsome : (latest.find?
      (fun a => a.provider == "gemini" && !(beforeIds.contains a.id))).isSome :=
    List.find?_isSome.mpr ⟨g, hg, hp⟩
  obtain ⟨t, ht⟩ := Option.isSome_iff_exists.mp hsome
  have hpt := List.find?_some ht
  simp [List.contains] at hpt
  refine ⟨t, List.mem_of_find?_eq_some ht, hpt.1, hpt.2, ?_⟩
  unfold geminiTarget
  rw [ht]

theorem geminiTarget_stale (beforeIds : List String)
    (latest : List AuthAccount)
    (h : ∀ g ∈ latest, g.provider = "gemini" → g.id ∈ beforeIds) :
    geminiTarget beforeIds latest =
      latest.find? (fun a => a.provider == "gemini") := by
  have hnone : latest.find?
      (fun a => a.provider == "gemini" && !(beforeIds.contains a.id)) = none := by
    rw [List.find?_eq_none]
    intro a ha
    by_cases hap : a.provider = "gemini"
    · simp [hap, List.contains, h a ha hap]
    · simp [hap]
  unfold geminiTarget
  rw [hnone]

theorem startLogin_run_auth (st : AccountsState) (p : String) (env : Env)
    (s : ServerStatus) (hs : env.serverStatus = .ok s)
    (hstart : s.running = false → env.startServer = .ok ()) :
    ∃ c0, startLogin st p env =
      startLoginAuth { st with loginInProgress := some p } p env c0 := by
  unfold startLogin
  rw [hs]
  cases hr : s.running with
  | true =>
    exact ⟨[RemoteCall.getServerStatus], by simp [hr]⟩
  | false =>
    rw [hstart hr]
    exact ⟨[RemoteCall.getServerStatus, RemoteCall.startServer],
      by simp [hr]⟩

theorem startLoginAuth_sync_google (st1 : AccountsState) (tok : String)
    (env : Env) (c0 : List RemoteCall)
    (hurl : env.oauthLogin "google" = .ok tok) (h1 : tok ≠ "")
    (h2 : jsStartsWith tok "http" = false) (latest : List AuthAccount)
    (hacc : env.authAccounts = .ok latest) :
    (startLoginAuth st1 "google" env c0).state.pendingGeminiAccountId =
      (match geminiTarget (st1.accounts.map (fun a => a.id)) latest with
       | some t => some t.id
       | none => st1.pendingGeminiAccountId) ∧
    (startLoginAuth st1 "google" env c0).state.showProjectPrompt =
      (match geminiTarget (st1.accounts.map (fun a => a.id)) latest with
       | some _ => true
       | none => st1.showProjectPrompt) := by
  rcases hgt : geminiTarget (st1.accounts.map (fun a => a.id)) latest with _ | t <;>
    simp [startLoginAuth, hurl, h1, h2, hacc, hgt]

/-- C4: in the synchronous-completion path for provider "google" (auth
result a non-empty, non-HTTP token), the project-id prompt target is the
gemini account absent from the pre-login snapshot when one exists — the
prompt opens for a genuinely new account id, not for any pre-existing
gemini account — and otherwise falls back to the first gemini account of
the freshly fetched (most recently known) list. -/
theorem google_sync_completion_prompt_target (st : AccountsState)
    (env : Env) (s : ServerStatus) (tok : String)
    (latest : List AuthAccount) (hs : env.serverStatus = .ok s)
    (hstart : s.running = false → env.startServer = .ok ())
    (hurl : env.oauthLogin "google" = .ok tok) (h1 : tok ≠ "")
    (h2 : jsStartsWith tok "http" = false)
    (hacc : env.authAccounts = .ok latest) :
    ((∃ g ∈ latest, g.provider = "gemini" ∧
        g.id ∉ st.accounts.map (fun a => a.id)) →
      ∃ t ∈ latest, t.provider = "gemini" ∧
        t.id ∉ st.accounts.map (fun a => a.id) ∧
        (startLogin st "google" env).state.pendingGeminiAccountId =
          some t.id ∧
        (startLogin st "google" env).state.showProjectPrompt = true) ∧
    ((∃ g ∈ latest, g.provider = "gemini") →
      (∀ g ∈ latest, g.provider = "gemini" →
        g.id ∈ st.accounts.map (fun a => a.id)) →
      (startLogin st "google" env).state.pendingGeminiAccountId =
        (latest.find? (fun a => a.provider == "gemini")).map
          (fun a => a.id) ∧
      (startLogin st "google" env).state.showProjectPrompt = true) := by
  obtain ⟨c0, hc0⟩ := startLogin_run_auth st "google" env s hs hstart
  have hsync := startLoginAuth_sync_google
    { st with loginInProgress := some "google" } tok env c0 hurl h1 h2
    latest hacc
  rw [hc0]
  constructor
  · intro hfresh
    obtain ⟨t, htmem, htp, htid, hgt⟩ :=
      geminiTarget_fresh (st.accounts.map (fun a => a.id)) latest hfresh
    have hgt' : geminiTarget
        (({ st with loginInProgress := some "google" } :
          AccountsState).accounts.map (fun a => a.id)) latest = some t := hgt
    rw [hgt'] at hsync
    exact ⟨t, htmem, htp, htid, hsync.1, hsync.2⟩
  · intro hex hall
    have hstale := geminiTarget_stale (st.accounts.map (fun a => a.id))
      latest hall
    have hstale' : geminiTarget
        (({ st with loginInProgress := some "google" } :
          AccountsState).accounts.map (fun a => a.id)) latest =
        latest.find? (fun a => a.provider == "gemini") := hstale
    obtain ⟨g, hg, hgp⟩ := hex
    have hpg : (g.provider == "gemini") = true := by simp [hgp]
    have hsome : (latest.find? (fun a => a.provider == "gemini")).isSome :=
      List.find?_isSome.mpr ⟨g, hg, hpg⟩
    obtain ⟨u, hu⟩ := Option.isSome_iff_exists.mp hsome
    rw [hstale', hu] at hsync
    rw [hu]
    exact ⟨hsync.1, hsync.2⟩

/-- A pre-existing gemini account known before the login. -/
def gAcc0 : AuthAccount := ⟨"g0", "gemini", none, true, none⟩

/-- The gemini account created by the synchronous login completion. -/
def gAcc1 : AuthAccount := ⟨"g1", "gemini", none, true, none⟩

/-- Pre-login state: only `gAcc0` is known. -/
def stGoogle : AccountsState := { stBase with accounts := [gAcc0] }

/-- Environment of the synchronous "google" completion: the auth call
resolves to a non-URL token and the re-fetched list contains the new
account `gAcc1`. -/
def envGoogle : Env :=
  { envBase with
      oauthLogin := fun _ => .ok "Login successful"
      authAccounts := .ok [gAcc0, gAcc1] }

/-- Witness for C4: in the concrete scenario the prompt opens for the new
account "g1", not for the pre-existing "g0". -/
theorem google_sync_completion_prompt_target_witness :
    (∃ g ∈ [gAcc0, gAcc1], g.provider = "gemini" ∧
        g.id ∉ stGoogle.accounts.map (fun a => a.id)) ∧
    (∃ t ∈ [gAcc0, gAcc1], t.provider = "gemini" ∧
        t.id ∉ stGoogle.accounts.map (fun a => a.id) ∧
        (startLogin stGoogle "google" envGoogle).state.pendingGeminiAccountId =
          some t.id ∧
        (startLogin stGoogle "google" envGoogle).state.showProjectPrompt =
          true) ∧
    (startLogin stGoogle "google" envGoogle).state.pendingGeminiAccountId =
      some "g1" :=
  ⟨by decide,
    (google_sync_completion_prompt_target stGoogle envGoogle ⟨true⟩
      "Login successful" [gAcc0, gAcc1] rfl
      (fun h => absurd h (by decide)) rfl (by decide)
      (by decide) rfl).1 (by decide),
    by decide⟩

theorem batchLoop_all_ok (env : Env) (b : Bool) (ids : List String)
    (h : ∀ i ∈ ids, env.setAccountEnabled i b = .ok ()) :
    batchLoop env b ids =
      (ids.map (fun i => RemoteCall.setAccountEnabled i b), none) := by
  induction ids with
  | nil => rfl
  | cons x rest ih =>
    have hx := h x (List.mem_cons_self x rest)
    have hrest := ih (fun i hi => h i (List.mem_cons_of_mem x hi))
    simp [batchLoop, hx, hrest]

theorem batchLoop_stops_at_first_error (env : Env) (b : Bool)
    (pre post : List String) (k e : String)
    (hpre : ∀ i ∈ pre, env.setAccountEnabled i b = .ok ())
    (hk : env.setAccountEnabled k b = .error e) :
    batchLoop env b (pre ++ k :: post) =
      ((pre ++ [k]).map (fun i => RemoteCall.setAccountEnabled i b),
        some e) := by
  induction pre with
  | nil => simp [batchLoop, hk]
  | cons x rest ih =>
    have hx := hpre x (List.mem_cons_self x rest)
    have hrest := ih (fun i hi => hpre i (List.mem_cons_of_mem x hi))
    simp [batchLoop, hx, hrest]

/-- C2: both batch executors apply `set_account_enabled` to the selected ids
strictly in order.  If the call for id `k` fails after the prefix `pre`
succeeded, the calls made are exactly those for `pre ++ [k]` (nothing after
`k`, no account re-fetch), the error is alerted, and the state — including
the selection set, so it is not cleared — is completely unchanged; the
mutations for `pre` were already issued and are not reverted.  Only when
every id succeeds are the accounts re-fetched and the selection cleared. -/
theorem batch_sequential_stop_on_first_failure (st : AccountsState)
    (env : Env) :
    (∀ pre k post e, st.selectedIds = pre ++ k :: post →
      (∀ i ∈ pre, env.setAccountEnabled i true = .ok ()) →
      env.setAccountEnabled k true = .error e →
      handleBatchEnable st env =
        ⟨st, (pre ++ [k]).map (fun i => RemoteCall.setAccountEnabled i true),
          ["批量启用失败: " ++ e], ["Failed to enable accounts: " ++ e], [],
          false⟩) ∧
    (st.selectedIds ≠ [] →
      (∀ i ∈ st.selectedIds, env.setAccountEnabled i true = .ok ()) →
      handleBatchEnable st env =
        ⟨{ (fetchAccounts st env).state with selectedIds := [] },
          st.selectedIds.map (fun i => RemoteCall.setAccountEnabled i true)
            ++ (fetchAccounts st env).calls, (fetchAccounts st env).alerts,
          (fetchAccounts st env).logsErr, (fetchAccounts st env).opened,
          (fetchAccounts st env).timeout60⟩) ∧
    (∀ pre k post e, st.selectedIds = pre ++ k :: post →
      (∀ i ∈ pre, env.setAccountEnabled i false = .ok ()) →
      env.setAccountEnabled k false = .error e →
      handleBatchDisable st env =
        ⟨st, (pre ++ [k]).map (fun i => RemoteCall.setAccountEnabled i false),
          ["批量禁用失败: " ++ e], ["Failed to disable accounts: " ++ e], [],
          false⟩) ∧
    (st.selectedIds ≠ [] →
      (∀ i ∈ st.selectedIds, env.setAccountEnabled i false = .ok ()) →
      handleBatchDisable st env =
        ⟨{ (fetchAccounts st env).state with selectedIds := [] },
          st.selectedIds.map (fun i => RemoteCall.setAccountEnabled i false)
            ++ (fetchAccounts st env).calls, (fetchAccounts st env).alerts,
          (fetchAccounts st env).logsErr, (fetchAccounts st env).opened,
          (fetchAccounts st env).timeout60⟩) := by
  refine ⟨?_, ?_, ?_, ?_⟩
  · intro pre k post e hsel hpre hk
    have hne : st.selectedIds.isEmpty = false := by
      rw [hsel]; cases pre <;> rfl
    have hloop := batchLoop_stops_at_first_error env true pre post k e hpre hk
    rw [← hsel] at hloop
    simp [handleBatchEnable, hne, hloop]
  · intro hne hok
    have hne' : st.selectedIds.isEmpty = false := by
      cases h : st.selectedIds with
      | nil => exact absurd h hne
      | cons a l => rfl
    have hloop := batchLoop_all_ok env true st.selectedIds hok
    simp [handleBatchEnable, hne', hloop]
  · intro pre k post e hsel hpre hk
    have hne : st.selectedIds.isEmpty = false := by
      rw [hsel]; cases pre <;> rfl
    have hloop := batchLoop_stops_at_first_error env false pre post k e hpre hk
    rw [← hsel] at hloop
    simp [handleBatchDisable, hne, hloop]
  · intro hne hok
    have hne' : st.selectedIds.isEmpty = false := by
      cases h : st.selectedIds with
      | nil => exact absurd h hne
      | cons a l => rfl
    have hloop := batchLoop_all_ok env false st.selectedIds hok
    simp [handleBatchDisable, hne', hloop]

/-- State with the three-account selection of the batch scenario. -/
def stSelABC : AccountsState :=
  { stBase with selectedIds := ["A", "B", "C"] }

/-- Environment in which the enable mutation fails exactly for id "B". -/
def envFailB : Env :=
  { envBase with
      setAccountEnabled := fun i _ =>
        if i = "B" then .error "boom" else .ok () }

/-- Witness for C2 at the spec's scenario: selection `{A, B, C}` with B's
mutation failing — A was mutated, the loop stopped at B, C was never
touched, the error is surfaced, and the selection set is unchanged. -/
theorem batch_sequential_stop_on_first_failure_witness :
    stSelABC.selectedIds = ["A"] ++ "B" :: ["C"] ∧
    envFailB.setAccountEnabled "A" true = .ok () ∧
    envFailB.setAccountEnabled "B" true = .error "boom" ∧
    handleBatchEnable stSelABC envFailB =
      ⟨stSelABC,
        [RemoteCall.setAccountEnabled "A" true,
          RemoteCall.setAccountEnabled "B" true],
        ["批量启用失败: boom"], ["Failed to enable accounts: boom"], [],
        false⟩ :=
  ⟨rfl, rfl, rfl,
    (batch_sequential_stop_on_first_failure stSelABC envFailB).1 ["A"] "B"
      ["C"] "boom" rfl
      (by intro i hi; simp only [List.mem_singleton] at hi; subst hi; rfl)
      rfl⟩

theorem applyCacheEntry_lookup_ne (env : Env) (st : AccountsState)
    (entry : String × CachedQuota) (id : String) (h : id ≠ entry.1) :
    ((applyCacheEntry env st entry).quotaData.lookup id =
      st.quotaData.lookup id) ∧
    ((applyCacheEntry env st entry).codexQuotaData.lookup id =
      st.codexQuotaData.lookup id) ∧
    ((applyCacheEntry env st entry).geminiQuotaData.lookup id =
      st.geminiQuotaData.lookup id) ∧
    ((applyCacheEntry env st entry).kiroQuotaData.lookup id =
      st.kiroQuotaData.lookup id) := by
  unfold applyCacheEntry
  cases hp : env.parse entry.2.quota_data with
  | none => exact ⟨rfl, rfl, rfl, rfl⟩
  | some v =>
    refine ⟨?_, ?_, ?_, ?_⟩ <;> (repeat' split) <;>
      simp [lookup_setKey_ne _ _ _ _ h]

theorem cacheFoldState_lookup_notmem (env : Env)
    (entries : List (String × CachedQuota)) (st : AccountsState)
    (id : String) (h : id ∉ entries.map Prod.fst) :
    ((cacheFoldState env st entries).quotaData.lookup id =
      st.quotaData.lookup id) ∧
    ((cacheFoldState env st entries).codexQuotaData.lookup id =
      st.codexQuotaData.lookup id) ∧
    ((cacheFoldState env st entries).geminiQuotaData.lookup id =
      st.geminiQuotaData.lookup id) ∧
    ((cacheFoldState env st entries).kiroQuotaData.lookup id =
      st.kiroQuotaData.lookup id) := by
  induction entries generalizing st with
  | nil => exact ⟨rfl, rfl, rfl, rfl⟩
  | cons e rest ih =>
    have hne : id ≠ e.1 := by
      intro hcon
      exact h (by simp [hcon])
    have hrest : id ∉ rest.map Prod.fst := by
      intro hcon
      exact h (by simp [hcon])
    have h1 := applyCacheEntry_lookup_ne env st e id hne
    have h2 := ih (applyCacheEntry env st e) hrest
    exact ⟨h2.1.trans h1.1, h2.2.1.trans h1.2.1, h2.2.2.1.trans h1.2.2.1,
      h2.2.2.2.trans h1.2.2.2⟩

theorem cacheFoldLogs_mem (env : Env)
    (entries : List (String × CachedQuota)) (id : String) (c : CachedQuota)
    (hmem : (id, c) ∈ entries) (hp : env.parse c.quota_data = none) :
    ("Failed to parse cached quota for " ++ id) ∈
      cacheFoldLogs env entries := by
  induction entries with
  | nil => cases hmem
  | cons e rest ih =>
    rcases List.mem_cons.mp hmem with heq | hmem'
    · subst heq
      simp [cacheFoldLogs, cacheEntryLogs, hp]
    · simp [cacheFoldLogs]
      exact Or.inr (ih hmem')

theorem cacheFold_entry_effect (env : Env)
    (entries : List (String × CachedQuota)) (st : AccountsState)
    (id : String) (c : CachedQuota)
    (hnd : (entries.map Prod.fst).Nodup) (hmem : (id, c) ∈ entries) :
    (env.parse c.quota_data = none →
      ((cacheFoldState env st entries).quotaData.lookup id =
        st.quotaData.lookup id) ∧
      ((cacheFoldState env st entries).codexQuotaData.lookup id =
        st.codexQuotaData.lookup id) ∧
      ((cacheFoldState env st entries).geminiQuotaData.lookup id =
        st.geminiQuotaData.lookup id) ∧
      ((cacheFoldState env st entries).kiroQuotaData.lookup id =
        st.kiroQuotaData.lookup id)) ∧
    (∀ v, env.parse c.quota_data = some v →
      (c.provider = "antigravity" →
        (cacheFoldState env st entries).quotaData.lookup id = some v) ∧
      (c.provider = "codex" →
        (cacheFoldState env st entries).codexQuotaData.lookup id = some v) ∧
      (c.provider = "gemini" →
        (cacheFoldState env st entries).geminiQuotaData.lookup id = some v) ∧
      (c.provider = "kiro" →
        (cacheFoldState env st entries).kiroQuotaData.lookup id = some v)) := by
  induction entries generalizing st with
  | nil => cases hmem
  | cons e rest ih =>
    have hhead : e.1 ∉ rest.map Prod.fst := (List.nodup_cons.mp hnd).1
    have hndrest : (rest.map Prod.fst).Nodup := (List.nodup_cons.mp hnd).2
    rcases List.mem_cons.mp hmem with heq | hmem'
    · subst heq
      have hskip := cacheFoldState_lookup_notmem env rest
        (applyCacheEntry env st (id, c)) id hhead
      constructor
      · intro hp
        have happ : applyCacheEntry env st (id, c) = st := by
          unfold applyCacheEntry
          rw [hp]
        have hstep : cacheFoldState env st ((id, c) :: rest) =
            cacheFoldState env st rest := by
          rw [cacheFoldState, happ]
        rw [hstep]
        exact cacheFoldState_lookup_notmem env rest st id hhead
      · intro v hp
        refine ⟨?_, ?_, ?_, ?_⟩ <;> intro hprov
        · have happ : (applyCacheEntry env st (id, c)).quotaData.lookup id =
              some v := by
            unfold applyCacheEntry
            rw [hp]
            simp [hprov, lookup_setKey_self]
          exact hskip.1.trans happ
        · have happ :
              (applyCacheEntry env st (id, c)).codexQuotaData.lookup id =
              some v := by
            unfold applyCacheEntry
            rw [hp]
            simp [hprov, lookup_setKey_self]
          exact hskip.2.1.trans happ
        · have happ :
              (applyCacheEntry env st (id, c)).geminiQuotaData.lookup id =
              some v := by
            unfold applyCacheEntry
            rw [hp]
            simp [hprov, lookup_setKey_self]
          exact hskip.2.2.1.trans happ
        · have happ :
              (applyCacheEntry env st (id, c)).kiroQuotaData.lookup id =
              some v := by
            unfold applyCacheEntry
            rw [hp]
            simp [hprov, lookup_setKey_self]
          exact hskip.2.2.2.trans happ
    · have hne : id ≠ e.1 := by
        intro hcon
        subst hcon
        exact hhead (List.mem_map.mpr ⟨(e.1, c), hmem', rfl⟩)
      have h1 := applyCacheEntry_lookup_ne env st e id hne
      have h2 := ih (applyCacheEntry env st e) hndrest hmem'
      constructor
      · intro hp
        have h3 := h2.1 hp
        exact ⟨h3.1.trans h1.1, h3.2.1.trans h1.2.1, h3.2.2.1.trans h1.2.2.1,
          h3.2.2.2.trans h1.2.2.2⟩
      · intro v hp
        exact h2.2 v hp

/-- C7: loading the cached-quota map skips every record whose payload fails
to deserialize — the failure is logged and the in-memory entry for that
account is neither overwritten nor removed, in any of the four provider
dictionaries — and the failure is not fatal: every well-formed record in
the map is still merged into the dictionary of its provider, and the load
performs exactly the single `get_cached_quotas` call. -/
theorem cached_quota_load_skips_malformed (st : AccountsState) (env : Env)
    (entries : List (String × CachedQuota))
    (hok : env.cachedQuotas = .ok entries)
    (hnd : (entries.map Prod.fst).Nodup) (id : String) (c : CachedQuota)
    (hmem : (id, c) ∈ entries) :
    (env.parse c.quota_data = none →
      ("Failed to parse cached quota for " ++ id) ∈
        (loadCachedQuotas st env).logsErr ∧
      ((loadCachedQuotas st env).state.quotaData.lookup id =
        st.quotaData.lookup id) ∧
      ((loadCachedQuotas st env).state.codexQuotaData.lookup id =
        st.codexQuotaData.lookup id) ∧
      ((loadCachedQuotas st env).state.geminiQuotaData.lookup id =
        st.geminiQuotaData.lookup id) ∧
      ((loadCachedQuotas st env).state.kiroQuotaData.lookup id =
        st.kiroQuotaData.lookup id)) ∧
    (∀ v, env.parse c.quota_data = some v →
      (c.provider = "antigravity" →
        (loadCachedQuotas st env).state.quotaData.lookup id = some v) ∧
      (c.provider = "codex" →
        (loadCachedQuotas st env).state.codexQuotaData.lookup id = some v) ∧
      (c.provider = "gemini" →
        (loadCachedQuotas st env).state.geminiQuotaData.lookup id = some v) ∧
      (c.provider = "kiro" →
        (loadCachedQuotas st env).state.kiroQuotaData.lookup id = some v)) ∧
    (loadCachedQuotas st env).calls = [RemoteCall.getCachedQuotas] := by
  have hload : loadCachedQuotas st env =
      ⟨cacheFoldState env st entries, [RemoteCall.getCachedQuotas], [],
        cacheFoldLogs env entries, [], false⟩ := by
    simp [loadCachedQuotas, hok]
  rw [hload]
  have heff := cacheFold_entry_effect env entries st id c hnd hmem
  exact ⟨fun hp => ⟨cacheFoldLogs_mem env entries id c hmem hp, heff.1 hp⟩,
    heff.2, rfl⟩

/-- A persisted record whose payload does not deserialize. -/
def cqBad : CachedQuota := ⟨"a", "antigravity", "bad", 0⟩

/-- A well-formed persisted record for provider "gemini". -/
def cqGood : CachedQuota := ⟨"b", "gemini", "good", 0⟩

/-- Environment whose cached-quota map holds one malformed and one
well-formed record; only the string "good" deserializes. -/
def envCache : Env :=
  { envBase with
      cachedQuotas := .ok [("a", cqBad), ("b", cqGood)]
      parse := fun s => if s = "good" then some ⟨1⟩ else none }

/-- State that already holds an in-memory antigravity entry for account
"a", the account whose cached record is malformed. -/
def stCache : AccountsState := { stBase with quotaData := [("a", ⟨7⟩)] }

/-- Witness for C7: the malformed record for "a" is logged and skipped —
the pre-existing in-memory entry for "a" survives — while the well-formed
record for "b" is still merged into the gemini dictionary. -/
theorem cached_quota_load_skips_malformed_witness :
    envCache.parse cqBad.quota_data = none ∧
    ("Failed to parse cached quota for " ++ "a") ∈
      (loadCachedQuotas stCache envCache).logsErr ∧
    (loadCachedQuotas stCache envCache).state.quotaData.lookup "a" =
      stCache.quotaData.lookup "a" ∧
    envCache.parse cqGood.quota_data = some ⟨1⟩ ∧
    (loadCachedQuotas stCache envCache).state.geminiQuotaData.lookup "b" =
      some ⟨1⟩ :=
  ⟨rfl,
    ((cached_quota_load_skips_malformed stCache envCache
      [("a", cqBad), ("b", cqGood)] rfl (by decide) "a" cqBad
      (by decide)).1 rfl).1,
    ((cached_quota_load_skips_malformed stCache envCache
      [("a", cqBad), ("b", cqGood)] rfl (by decide) "a" cqBad
      (by decide)).1 rfl).2.1,
    rfl,
    (((cached_quota_load_skips_malformed stCache envCache
      [("a", cqBad), ("b", cqGood)] rfl (by decide) "b" cqGood
      (by decide)).2.1 ⟨1⟩ rfl).2.2.1 rfl)⟩

/-- No quota fetch is in flight for any id, in any provider family. -/
def allQuotaIdle (st : AccountsState) : Prop :=
  (∀ k, lookupD st.quotaLoading k = false) ∧
  (∀ k, lookupD st.codexQuotaLoading k = false) ∧
  (∀ k, lookupD st.geminiQuotaLoading k = false) ∧
  (∀ k, lookupD st.kiroQuotaLoading k = false)

theorem lookupD_setKey_false_all (m : List (String × Bool)) (id : String)
    (h : ∀ k, lookupD m k = false) (v : Bool) :
    ∀ k, lookupD (setKey (setKey m id v) id false) k = false := by
  intro k
  by_cases hk : k = id
  · subst hk
    exact lookupD_setKey_self _ _ _
  · rw [lookupD_setKey_ne _ _ _ _ hk, lookupD_setKey_ne _ _ _ _ hk]
    exact h k

theorem fetchQuota_idle (st : AccountsState) (env : Env) (id : String)
    (h : allQuotaIdle st) :
    (fetchQuota st env id).calls = [RemoteCall.fetchAntigravityQuota id] ∧
    allQuotaIdle (fetchQuota st env id).state := by
  obtain ⟨h1, h2, h3, h4⟩ := h
  cases hf : env.fetchAntigravity id with
  | ok v =>
    refine ⟨by simp [fetchQuota, h1 id, hf], ?_, ?_, ?_, ?_⟩ <;>
      intro k <;> simp only [fetchQuota, h1 id, hf] <;>
      simp [lookupD_setKey_false_all _ id h1 true k, h2 k, h3 k, h4 k]
  | error e =>
    refine ⟨by simp [fetchQuota, h1 id, hf], ?_, ?_, ?_, ?_⟩ <;>
      intro k <;> simp only [fetchQuota, h1 id, hf] <;>
      simp [lookupD_setKey_false_all _ id h1 true k, h2 k, h3 k, h4 k]

theorem fetchCodexQuota_idle (st : AccountsState) (env : Env) (id : String)
    (h : allQuotaIdle st) :
    (fetchCodexQuota st env id).calls = [RemoteCall.fetchCodexQuota id] ∧
    allQuotaIdle (fetchCodexQuota st env id).state := by
  obtain ⟨h1, h2, h3, h4⟩ := h
  cases hf : env.fetchCodex id with
  | ok v =>
    refine ⟨by simp [fetchCodexQuota, h2 id, hf], ?_, ?_, ?_, ?_⟩ <;>
      intro k <;> simp only [fetchCodexQuota, h2 id, hf] <;>
      simp [lookupD_setKey_false_all _ id h2 true k, h1 k, h3 k, h4 k]
  | error e =>
    refine ⟨by simp [fetchCodexQuota, h2 id, hf], ?_, ?_, ?_, ?_⟩ <;>
      intro k <;> simp only [fetchCodexQuota, h2 id, hf] <;>
      simp [lookupD_setKey_false_all _ id h2 true k, h1 k, h3 k, h4 k]

theorem fetchGeminiQuota_idle (st : AccountsState) (env : Env) (id : String)
    (h : allQuotaIdle st) :
    (fetchGeminiQuota st env id).calls = [RemoteCall.fetchGeminiQuota id] ∧
    allQuotaIdle (fetchGeminiQuota st env id).state := by
  obtain ⟨h1, h2, h3, h4⟩ := h
  cases hf : env.fetchGemini id with
  | ok v =>
    refine ⟨by simp [fetchGeminiQuota, h3 id, hf], ?_, ?_, ?_, ?_⟩ <;>
      intro k <;> simp only [fetchGeminiQuota, h3 id, hf] <;>
      simp [lookupD_setKey_false_all _ id h3 true k, h1 k, h2 k, h4 k]
  | error e =>
    refine ⟨by simp [fetchGeminiQuota, h3 id, hf], ?_, ?_, ?_, ?_⟩ <;>
      intro k <;> simp only [fetchGeminiQuota, h3 id, hf] <;>
      simp [lookupD_setKey_false_all _ id h3 true k, h1 k, h2 k, h4 k]

theorem fetchKiroQuota_idle (st : AccountsState) (env : Env) (id : String)
    (h : allQuotaIdle st) :
    (fetchKiroQuota st env id).calls = [RemoteCall.fetchKiroQuota id] ∧
    allQuotaIdle (fetchKiroQuota st env id).state := by
  obtain ⟨h1, h2, h3, h4⟩ := h
  cases hf : env.fetchKiro id with
  | ok v =>
    refine ⟨by simp [fetchKiroQuota, h4 id, hf], ?_, ?_, ?_, ?_⟩ <;>
      intro k <;> simp only [fetchKiroQuota, h4 id, hf] <;>
      simp [lookupD_setKey_false_all _ id h4 true k, h1 k, h2 k, h3 k]
  | error e =>
    refine ⟨by simp [fetchKiroQuota, h4 id, hf], ?_, ?_, ?_, ?_⟩ <;>
      intro k <;> simp only [fetchKiroQuota, h4 id, hf] <;>
      simp [lookupD_setKey_false_all _ id h4 true k, h1 k, h2 k, h3 k]

theorem foldFetch_calls (f : AccountsState → String → Outcome)
    (g : String → RemoteCall)
    (hf : ∀ s id, allQuotaIdle s →
      (f s id).calls = [g id] ∧ allQuotaIdle (f s id).state)
    (l : List AuthAccount) (o : Outcome) (ho : allQuotaIdle o.state) :
    (l.foldl (fun o a => seqOutcome o (f o.state a.id)) o).calls =
      o.calls ++ l.map (fun a => g a.id) ∧
    allQuotaIdle
      (l.foldl (fun o a => seqOutcome o (f o.state a.id)) o).state := by
  induction l generalizing o with
  | nil => exact ⟨by simp, ho⟩
  | cons a rest ih =>
    have hstep := hf o.state a.id ho
    have hnext : allQuotaIdle (seqOutcome o (f o.state a.id)).state :=
      hstep.2
    have hres := ih (seqOutcome o (f o.state a.id)) hnext
    constructor
    · rw [List.foldl_cons, hres.1]
      simp [seqOutcome, hstep.1, List.append_assoc]
    · rw [List.foldl_cons]
      exact hres.2

theorem refreshAllQuotas_calls (st : AccountsState) (env : Env)
    (h : allQuotaIdle st) :
    (refreshAllQuotas st env).calls =
      (st.accounts.filter (fun a => a.provider == "antigravity")).map
        (fun a => RemoteCall.fetchAntigravityQuota a.id) ++
      (st.accounts.filter
        (fun a => a.provider == "openai" || a.provider == "codex")).map
        (fun a => RemoteCall.fetchCodexQuota a.id) ++
      (st.accounts.filter
        (fun a => a.provider == "gemini" || a.provider == "google")).map
        (fun a => RemoteCall.fetchGeminiQuota a.id) ++
      (st.accounts.filter (fun a => a.provider == "kiro")).map
        (fun a => RemoteCall.fetchKiroQuota a.id) := by
  unfold refreshAllQuotas
  obtain ⟨hc1, hi1⟩ := foldFetch_calls (fun s id => fetchQuota s env id)
    RemoteCall.fetchAntigravityQuota
    (fun s id hs => fetchQuota_idle s env id hs)
    (st.accounts.filter (fun a => a.provider == "antigravity"))
    (pureOutcome st) h
  obtain ⟨hc2, hi2⟩ := foldFetch_calls (fun s id => fetchCodexQuota s env id)
    RemoteCall.fetchCodexQuota
    (fun s id hs => fetchCodexQuota_idle s env id hs)
    (st.accounts.filter
      (fun a => a.provider == "openai" || a.provider == "codex")) _ hi1
  obtain ⟨hc3, hi3⟩ := foldFetch_calls
    (fun s id => fetchGeminiQuota s env id) RemoteCall.fetchGeminiQuota
    (fun s id hs => fetchGeminiQuota_idle s env id hs)
    (st.accounts.filter
      (fun a => a.provider == "gemini" || a.provider == "google")) _ hi2
  obtain ⟨hc4, hi4⟩ := foldFetch_calls (fun s id => fetchKiroQuota s env id)
    RemoteCall.fetchKiroQuota
    (fun s id hs => fetchKiroQuota_idle s env id hs)
    (st.accounts.filter (fun a => a.provider == "kiro")) _ hi3
  rw [hc4, hc3, hc2, hc1]
  simp [pureOutcome, List.append_assoc]

/-- C8 counterexample: the auto-refresh effect is keyed on the account
count, so at the transition from 1 account to 2 accounts — the set never
being empty — the effect re-runs: the timer is torn down and recreated and
`get_settings` is read again (the interval IS hot-reloaded), contradicting
"torn down and recreated only when the account set transitions from empty
to non-empty". -/
theorem auto_refresh_recreated_without_empty_transition :
    autoRefreshEffectReruns 1 2 = true ∧
    autoRefreshEffectBody 2 envBase =
      ([RemoteCall.getSettings], some 300000) ∧
    (1 : Nat) ≠ 0 := by
  refine ⟨by decide, ?_, by decide⟩
  rfl

/-- C8 amended: the scheduler reads `quota_refresh_interval` once per
effect run and installs a timer with period `minutes * 60 * 1000` ms; each
tick fans out a refresh for every known account grouped by provider
family; but the effect re-runs exactly when the account COUNT changes
between renders (tearing the timer down, and recreating it — with freshly
read settings — whenever the new count is non-zero), not only on the
empty-to-non-empty transition. -/
theorem auto_refresh_effect_semantics (prev curr : Nat) (env : Env)
    (s : Settings) (hs : env.settings = .ok s) :
    (autoRefreshEffectReruns prev curr = true ↔ prev ≠ curr) ∧
    (curr > 0 → autoRefreshEffectBody curr env =
      ([RemoteCall.getSettings],
        some (s.quota_refresh_interval * 60 * 1000))) ∧
    (curr = 0 → autoRefreshEffectBody curr env = ([], none)) ∧
    (∀ st : AccountsState, allQuotaIdle st → st.accounts ≠ [] →
      (autoRefreshTick st env).calls =
        (st.accounts.filter (fun a => a.provider == "antigravity")).map
          (fun a => RemoteCall.fetchAntigravityQuota a.id) ++
        (st.accounts.filter
          (fun a => a.provider == "openai" || a.provider == "codex")).map
          (fun a => RemoteCall.fetchCodexQuota a.id) ++
        (st.accounts.filter
          (fun a => a.provider == "gemini" || a.provider == "google")).map
          (fun a => RemoteCall.fetchGeminiQuota a.id) ++
        (st.accounts.filter (fun a => a.provider == "kiro")).map
          (fun a => RemoteCall.fetchKiroQuota a.id)) ∧
    (∀ st : AccountsState, st.accounts = [] →
      autoRefreshTick st env = pureOutcome st) := by
  refine ⟨?_, ?_, ?_, ?_, ?_⟩
  · simp [autoRefreshEffectReruns]
  · intro h
    simp [autoRefreshEffectBody, h, setupAutoRefresh, hs]
  · intro h
    simp [autoRefreshEffectBody, h]
  · intro st hidle hne
    have hlen : st.accounts.length > 0 := List.length_pos.mpr hne
    have htick : autoRefreshTick st env = refreshAllQuotas st env := by
      simp [autoRefreshTick, hlen]
    rw [htick]
    exact refreshAllQuotas_calls st env hidle
  · intro st h
    simp [autoRefreshTick, h]

/-- Witness for C8's amended theorem at concrete inputs: the 0-to-1
transition re-runs the effect, a 5-minute interval installs a 300000 ms
timer, and a tick over the single known gemini account fans out exactly
its gemini fetch. -/
theorem auto_refresh_effect_semantics_witness :
    envBase.settings = .ok ⟨5, 5⟩ ∧
    (autoRefreshEffectReruns 0 1 = true ↔ (0 : Nat) ≠ 1) ∧
    autoRefreshEffectBody 1 envBase =
      ([RemoteCall.getSettings], some 300000) ∧
    (autoRefreshTick stGoogle envBase).calls =
      [RemoteCall.fetchGeminiQuota "g0"] := by
  refine ⟨rfl, (auto_refresh_effect_semantics 0 1 envBase ⟨5, 5⟩ rfl).1,
    (auto_refresh_effect_semantics 0 1 envBase ⟨5, 5⟩ rfl).2.1
      (by decide), ?_⟩
  rw [(auto_refresh_effect_semantics 0 1 envBase ⟨5, 5⟩ rfl).2.2.2.1
    stGoogle ⟨fun k => rfl, fun k => rfl, fun k => rfl, fun k => rfl⟩
    (by decide)]
  rfl
